import Mathlib

/-!
Shallow embedding of `ofxstatement/plugins/paypal.py` (the ofxstatement-paypal
plugin) and verification of its natural-language specification.

Python strings are modelled as Lean `String`; a Python value that is either a
string or `None` is modelled as `Option String` (`PyStr`).  A Python call that
may raise an exception is modelled as an `Option`-valued function, `none`
standing for the raised exception (IndexError, ValueError, TypeError, ...).
Process-wide mutable locale state is modelled by explicit state passing.
-/

namespace PayPal

/-- A Python value that is either a `str` or `None`. -/
abbrev PyStr := Option String

/-- How Python renders a value inside an f-string: `None` prints as "None". -/
def pyFmt : PyStr → String
  | none => "None"
  | some s => s

/-- Python `str.replace` for a single-character pattern: every occurrence of
`pat` in `s` is replaced by `rep`.  (All patterns used by the source —
`" "`, `"."`, `","` and real locale separators — are single characters.) -/
def replace1 (s : String) (pat : Char) (rep : String) : String :=
  ⟨(s.data.map (fun ch => if ch == pat then rep.data else [ch])).flatten⟩

/-- Numeric value of a decimal digit character. -/
def digitVal (c : Char) : Nat := c.toNat - 48

/-- Value of a list of decimal digit characters, most significant first. -/
def digitsVal (ds : List Char) : Nat := ds.foldl (fun a c => 10 * a + digitVal c) 0

/-- The decimal fragment of Python `float()`: optional sign, then digits with
at most one decimal point, at least one digit overall.  (Exponent, underscore
and inf/nan forms never arise from the Gross normalization in this parser.)
`none` models the `ValueError` raised on malformed input. -/
def pyFloat (s : String) : Option ℚ :=
  let cs := s.data
  let signAndRest : Int × List Char :=
    match cs with
    | '+' :: r => (1, r)
    | '-' :: r => (-1, r)
    | _ => (1, cs)
  let sign := signAndRest.1
  let cs1 := signAndRest.2
  let intPart := cs1.takeWhile Char.isDigit
  let rest1 := cs1.dropWhile Char.isDigit
  match rest1 with
  | [] => if intPart.isEmpty then none else some (mkRat (sign * digitsVal intPart) 1)
  | '.' :: r2 =>
    let fracPart := r2.takeWhile Char.isDigit
    let rest2 := r2.dropWhile Char.isDigit
    if rest2.isEmpty && !(intPart.isEmpty && fracPart.isEmpty) then
      some (mkRat (sign * (digitsVal intPart * 10 ^ fracPart.length + digitsVal fracPart))
        (10 ^ fracPart.length))
    else none
  | _ => none

/-- The numeric conventions of a locale, as reported by `locale.localeconv()`:
its decimal point and (optional) thousands separator.  In every real numeric
locale both are single characters; `none` models an empty `thousands_sep`.
The default "C" locale is `⟨'.', none⟩`. -/
structure LocaleConv where
  decimal_point : Char
  thousands_sep : Option Char
deriving DecidableEq

/-- The "C" / process-default numeric locale. -/
def cLocaleConv : LocaleConv := ⟨'.', none⟩

/-- A locale in the style of `de_DE`: comma decimal point, dot thousands
separator. -/
def deLocaleConv : LocaleConv := ⟨',', '.'⟩

/-- Python `locale.delocalize`: strip the thousands separator, then turn the
locale's decimal point into `'.'`. -/
def delocalize (conv : LocaleConv) (s : String) : String :=
  let s1 := match conv.thousands_sep with
    | some t => replace1 s t ""
    | none => s
  replace1 s1 conv.decimal_point "."

/-- Python `locale.atof` under a given numeric-locale convention:
`float(delocalize(string))`. -/
def localeAtof (conv : LocaleConv) (s : String) : Option ℚ :=
  pyFloat (delocalize conv s)

/-- `scoped_setlocale` from the source: save the current LC_NUMERIC state,
set it to `loc` when one is given (`locale.setlocale(cat, None)` only queries),
run the body in the new state, and — in a `finally` block, hence on both the
success and the exception path — restore the saved state.  The process locale
state is threaded explicitly; the result pairs the body's outcome with the
final process state. -/
def scoped_setlocale {α : Type} (st : LocaleConv) (loc : Option LocaleConv)
    (body : LocaleConv → Option α) : Option α × LocaleConv :=
  let orig := st
  let cur := match loc with
    | none => st
    | some l => l
  let res := body cur
  (res, orig)

/-- `atof` from the source: locale-aware float parsing, overriding LC_NUMERIC
with `loc` for the duration of the single call. -/
def atof (s : String) (loc : Option LocaleConv) (st : LocaleConv) :
    Option ℚ × LocaleConv :=
  scoped_setlocale st loc (fun cur => localeAtof cur s)

/-- `PayPalStatementParser.valid_header`: the fixed 25-entry expected header. -/
def valid_header : List String :=
  ["Date", "Time", "Time Zone", "Name", "Type", "Status", "Currency", "Gross",
   "Fee", "Net", "From Email Address", "To Email Address", "Transaction ID",
   "Shipping Address", "Item Title", "Item ID", "Shipping and Handling Amount",
   "Reference Txn ID", "Receipt ID", "Balance", "Contact Phone Number",
   "Subject", "Note", "Balance Impact", ""]

/-- `self.valid_header.index(name)` as used throughout the source. -/
def idxOf (name : String) : Nat := valid_header.indexOf name

/-- The row filter of `PayPalStatementParser.rows`: the Python list
comprehension `[r for r in rs if r[currency_idx] == self.currency and
r[type_idx] != "Bank Deposit to PP Account"]`.  Indexing a too-short row
raises IndexError (`none`); `and` short-circuits, so the Type field is only
read when the Currency field matched. -/
def rowsFilter (currency : String) : List (List String) → Option (List (List String))
  | [] => some []
  | r :: rest => do
    let c ← r.get? (idxOf "Currency")
    if c == currency then do
      let t ← r.get? (idxOf "Type")
      let rest2 ← rowsFilter currency rest
      pure (if t == "Bank Deposit to PP Account" then rest2 else r :: rest2)
    else
      rowsFilter currency rest

/-- `PayPalStatementParser.rows`: drop the header row, then filter. -/
def rows (currency : String) (allRows : List (List String)) :
    Option (List (List String)) :=
  rowsFilter currency (allRows.drop 1)

/-- Python `str.strip()`: remove leading and trailing whitespace. -/
def strip (s : String) : String :=
  ⟨((s.data.dropWhile fun c => c.isWhitespace).reverse.dropWhile
      fun c => c.isWhitespace).reverse⟩

/-- `PayPalStatementParser.header`: the first CSV record with every cell
stripped; `head` of an empty file raises (`none`). -/
def header (allRows : List (List String)) : Option (List String) :=
  match allRows with
  | [] => none
  | h :: _ => some (h.map strip)

/-- `PayPalStatementParser.validate`: raise ValueError (`none`) unless the
trimmed header equals `valid_header` exactly. -/
def validate (allRows : List (List String)) : Option Unit := do
  let actual ← header allRows
  if valid_header = actual then some () else none

/-- `PayPalStatementParser.split_records`: a generator yielding each filtered
row once, in order. -/
def split_records (rs : List (List String)) : List (List String) := rs

/-- A calendar date as produced by `datetime.strptime` (the time part of the
`%d/%m/%Y` parse is always midnight and is dropped). -/
structure PyDate where
  year : Nat
  month : Nat
  day : Nat
deriving DecidableEq

/-- CPython `_strptime` directive `%d`, regex
`3[01]|[12]\d|0[1-9]|[1-9]| [1-9]`: a one- or two-digit day (optionally
space-padded) in 1..31, returned with the unconsumed remainder. -/
def parseDay : List Char → Option (Nat × List Char)
  | c0 :: c1 :: rest =>
    if c0.isDigit && c1.isDigit then
      let v := 10 * digitVal c0 + digitVal c1
      if 1 ≤ v && v ≤ 31 then some (v, rest) else none
    else if c0.isDigit then
      if 1 ≤ digitVal c0 then some (digitVal c0, c1 :: rest) else none
    else if c0 == ' ' && c1.isDigit && 1 ≤ digitVal c1 then
      some (digitVal c1, rest)
    else none
  | [c0] => if c0.isDigit && 1 ≤ digitVal c0 then some (digitVal c0, []) else none
  | [] => none

/-- CPython `_strptime` directive `%m`, regex `1[0-2]|0[1-9]|[1-9]`:
a one- or two-digit month in 1..12. -/
def parseMonth : List Char → Option (Nat × List Char)
  | c0 :: c1 :: rest =>
    if c0.isDigit && c1.isDigit then
      let v := 10 * digitVal c0 + digitVal c1
      if 1 ≤ v && v ≤ 12 then some (v, rest) else none
    else if c0.isDigit && 1 ≤ digitVal c0 then some (digitVal c0, c1 :: rest)
    else none
  | [c0] => if c0.isDigit && 1 ≤ digitVal c0 then some (digitVal c0, []) else none
  | [] => none

/-- CPython `_strptime` directive `%Y`, regex `\d\d\d\d`: exactly four
digits. -/
def parseYear4 : List Char → Option (Nat × List Char)
  | c0 :: c1 :: c2 :: c3 :: rest =>
    if c0.isDigit && c1.isDigit && c2.isDigit && c3.isDigit then
      some (1000 * digitVal c0 + 100 * digitVal c1 + 10 * digitVal c2 +
        digitVal c3, rest)
    else none
  | _ => none

/-- Gregorian leap-year rule, as in Python's `datetime`. -/
def isLeap (y : Nat) : Bool := y % 4 == 0 && (y % 100 != 0 || y % 400 == 0)

/-- Days in a month, as validated by the `datetime` constructor. -/
def daysInMonth (y m : Nat) : Nat :=
  if m == 2 then (if isLeap y then 29 else 28)
  else if m == 4 || m == 6 || m == 9 || m == 11 then 30
  else 31

/-- `datetime.strptime(s, "%d/%m/%Y")`: match `%d`, a literal `/`, `%m`, a
literal `/`, `%Y`, require the whole string consumed, then build the
`datetime`, which raises (`none`) when the year is 0 or the day exceeds the
month's length. -/
def strptimeDMY (s : String) : Option PyDate := do
  let (d, r1) ← parseDay s.data
  match r1 with
  | '/' :: r2 =>
    let (m, r3) ← parseMonth r2
    match r3 with
    | '/' :: r4 =>
      let (y, r5) ← parseYear4 r4
      match r5 with
      | [] => if 1 ≤ y && d ≤ daysInMonth y m then some ⟨y, m, d⟩ else none
      | _ => none
    | _ => none
  | _ => none

/-- The Gross normalization on source line 154:
`.replace(" ", "").replace(".", "").replace(",", ".")`. -/
def normalizeGross (s : String) : String :=
  replace1 (replace1 (replace1 s ' ' "") '.' "") ',' "."

/-- The fields of an `ofxstatement` `StatementLine` that
`PayPalStatementParser.parse_record` fills in. -/
structure StatementLine where
  id : PyStr
  date : PyDate
  memo : String
  payee : String
  refnum : PyStr
  amount : ℚ
deriving DecidableEq

/-- `PayPalStatementParser.parse_record`.  `row` is a Python list whose
entries are strings or `None`; `row.get? i` models `row[i]` (IndexError when
out of range).  The memo starts empty and is overwritten in turn by the Note,
Subject and Item Title fields whenever the field `is not None`.  The Date
field must be a string accepted by `strptime("%d/%m/%Y")` and the Gross field
a string whose normalization `atof` accepts under the locale `loc` (the
process numeric locale being `st`); otherwise the call raises (`none`). -/
def parse_record (loc : Option LocaleConv) (st : LocaleConv)
    (row : List PyStr) : Option StatementLine := do
  let note ← row.get? (idxOf "Note")
  let subject ← row.get? (idxOf "Subject")
  let title ← row.get? (idxOf "Item Title")
  let memo0 := ""
  let memo1 := match note with | some n => n | none => memo0
  let memo2 := match subject with | some s => s | none => memo1
  let memo3 := match title with | some t => t | none => memo2
  let idv ← row.get? (idxOf "Transaction ID")
  let dateP ← row.get? (idxOf "Date")
  let dateStr ← dateP
  let date ← strptimeDMY dateStr
  let namev ← row.get? (idxOf "Name")
  let emailv ← row.get? (idxOf "To Email Address")
  let payee := "Name: " ++ pyFmt namev ++ " Email: " ++ pyFmt emailv
  let refv ← row.get? (idxOf "Reference Txn ID")
  let grossP ← row.get? (idxOf "Gross")
  let gross ← grossP
  let amount ← (atof (normalizeGross gross) loc st).1
  pure ⟨idv, date, memo3, payee, refv, amount⟩

/-- The driver loop of `StatementParser.parse`: map `parse_record` over the
rows yielded by `split_records`, aborting the whole run on the first
exception. -/
def mapRecords (f : List String → Option StatementLine) :
    List (List String) → Option (List StatementLine)
  | [] => some []
  | r :: rs => do
    let line ← f r
    let rest ← mapRecords f rs
    pure (line :: rest)

/-- The full reference pipeline on the decoded CSV records: drop the header,
filter by currency and excluded type, map each retained row (a list of plain
strings, as produced by `csv.reader`) through `parse_record`.  `validate` is
never called here, exactly as in the source (`#self.validate()` is commented
out). -/
def parseAll (loc : Option LocaleConv) (st : LocaleConv) (currency : String)
    (allRows : List (List String)) : Option (List StatementLine) := do
  let rs ← rows currency allRows
  mapRecords (fun r => parse_record loc st (r.map some)) (split_records rs)

/-- `parse_bool` from the source. -/
def parse_bool (value : String) : Option Bool :=
  if value == "True" || value == "true" || value == "1" then some true
  else if value == "False" || value == "false" || value == "0" then some false
  else none

/-- The recognized plugin settings (each possibly absent). -/
structure Settings where
  account_id : Option String
  currency : Option String
  loc : Option String
  encoding : Option String
  analyze : Option String
deriving DecidableEq

/-- The constructor arguments `PayPalPlugin.get_parser` assembles for
`PayPalStatementParser`. -/
structure ParserConfig where
  account_id : String
  currency : String
  loc : Option String
  encoding : String
  analyze : Bool
deriving DecidableEq

/-- `PayPalPlugin.get_parser`: build the kwargs (encoding defaulting to
`iso8859-1`, `analyze` going through `parse_bool`, whose ValueError aborts
before any statement parsing) and call the parser constructor, which needs
`account_id` and `currency` (TypeError, i.e. `none`, when missing). -/
def getParserConfig (s : Settings) : Option ParserConfig := do
  let analyze ← match s.analyze with
    | none => pure false
    | some a => parse_bool a
  let aid ← s.account_id
  let cur ← s.currency
  pure ⟨aid, cur, s.loc, s.encoding.getD "iso8859-1", analyze⟩

/-- The retention predicate stated by the specification: keep a row exactly
when its Currency field (index 6) equals the target currency and its Type
field (index 4) differs from "Bank Deposit to PP Account". -/
def keepRow (currency : String) (r : List String) : Bool :=
  (r.getD 6 "" == currency) && !(r.getD 4 "" == "Bank Deposit to PP Account")

/-- Stated from the claim's words: the string consists of exactly a two-digit
day, `/`, a two-digit month, `/` and a four-digit year. -/
def matchesDDMMYYYY (s : String) : Bool :=
  match s.data with
  | [d1, d2, '/', m1, m2, '/', y1, y2, y3, y4] =>
    d1.isDigit && d2.isDigit && m1.isDigit && m2.isDigit &&
      y1.isDigit && y2.isDigit && y3.isDigit && y4.isDigit
  | _ => false

/-- Stated from the claim's words, with calendar validity: a strict
`DD/MM/YYYY` string (two-digit day, two-digit month, four-digit year)
denoting a valid calendar date, together with that date. -/
def strictDDMMYYYY (s : String) : Option PyDate :=
  match s.data with
  | [d1, d2, '/', m1, m2, '/', y1, y2, y3, y4] =>
    if d1.isDigit && d2.isDigit && m1.isDigit && m2.isDigit &&
        y1.isDigit && y2.isDigit && y3.isDigit && y4.isDigit then
      let d := 10 * digitVal d1 + digitVal d2
      let m := 10 * digitVal m1 + digitVal m2
      let y := 1000 * digitVal y1 + 100 * digitVal y2 +
        10 * digitVal y3 + digitVal y4
      if 1 ≤ y && 1 ≤ m && m ≤ 12 && 1 ≤ d && d ≤ daysInMonth y m then
        some ⟨y, m, d⟩
      else none
    else none
  | _ => none

/-! Concrete sample data used to instantiate the theorems below. -/

/-- A full 25-field row in euros with transaction type "Payment". -/
def w1a : List String :=
  ["01/01/2024", "00:00:00", "CET", "A", "Payment", "C", "EUR", "1", "0", "1",
   "f@x", "t@x", "T1", "", "I", "", "0", "", "", "", "", "", "", "Credit", ""]

/-- Like `w1a` but in dollars: fails the currency test. -/
def w1b : List String :=
  ["01/01/2024", "00:00:00", "CET", "A", "Payment", "C", "USD", "1", "0", "1",
   "f@x", "t@x", "T2", "", "I", "", "0", "", "", "", "", "", "", "Credit", ""]

/-- Like `w1a` but of the excluded type "Bank Deposit to PP Account". -/
def w1c : List String :=
  ["01/01/2024", "00:00:00", "CET", "A", "Bank Deposit to PP Account", "C",
   "EUR", "1", "0", "1", "f@x", "t@x", "T3", "", "I", "", "0", "", "", "", "",
   "", "", "Credit", ""]

/-- A 25-field row whose Note is "N", whose Subject is present but empty and
whose Item Title is absent (`None`). -/
def c2row : List PyStr :=
  [some "25/12/2023", some "10:00:00", some "CET", some "Alice", some "Payment",
   some "Completed", some "EUR", some "5", some "0", some "5", some "f@x",
   some "t@x", some "TX1", some "addr", none, some "I1", some "0", some "R1",
   some "", some "100", some "", some "", some "N", some "Credit", some ""]

/-- The record `parse_record` produces from `c2row`. -/
def c2rec : StatementLine :=
  ⟨some "TX1", ⟨2023, 12, 25⟩, "", "Name: Alice Email: t@x", some "R1", 5⟩

/-- A 25-field all-string row with Gross "7". -/
def w3row : List PyStr :=
  [some "02/03/2024", some "09:00:00", some "CET", some "N3", some "Payment",
   some "Completed", some "EUR", some "7", some "0", some "7", some "f3",
   some "e3", some "T3", some "", some "memo3", some "", some "0", some "",
   some "", some "", some "", some "", some "", some "Credit", some ""]

/-- The record `parse_record` produces from `w3row`. -/
def w3rec : StatementLine :=
  ⟨some "T3", ⟨2024, 3, 2⟩, "memo3", "Name: N3 Email: e3", some "", 7⟩

/-- A 25-field euro row whose Date field "2023-12-25" is not in the
`%d/%m/%Y` format. -/
def badDateRow : List String :=
  ["2023-12-25", "00:00:00", "CET", "A", "Payment", "C", "EUR", "1", "0", "1",
   "f@x", "t@x", "T9", "", "I", "", "0", "", "", "", "", "", "", "Credit", ""]

/-- A 25-field all-string row with Transaction ID "TID5" and Reference Txn ID
"REF5". -/
def w5row : List PyStr :=
  [some "31/01/2020", some "08:00:00", some "CET", some "N5", some "Payment",
   some "Completed", some "EUR", some "2", some "0", some "2", some "f5",
   some "e5", some "TID5", some "", some "t5", some "", some "0", some "REF5",
   some "", some "", some "", some "", some "", some "Credit", some ""]

/-- The record `parse_record` produces from `w5row`. -/
def w5rec : StatementLine :=
  ⟨some "TID5", ⟨2020, 1, 31⟩, "t5", "Name: N5 Email: e5", some "REF5", 2⟩

/-- A 23-field euro row: two fields short of the 25-column schema, yet long
enough for every index `parse_record` reads. -/
def row23 : List String :=
  ["25/12/2023", "10:00", "CET", "Alice", "Payment", "Done", "EUR", "10,50",
   "0", "10", "f@x", "t@x", "TX9", "addr", "It9", "I1", "0", "R9", "", "100",
   "", "S9", "N9"]

/-- The record `parse_record` produces from `row23`. -/
def rec23 : StatementLine :=
  ⟨some "TX9", ⟨2023, 12, 25⟩, "It9", "Name: Alice Email: t@x", some "R9",
   mkRat 21 2⟩

/-- A 25-field all-string row whose Item Title is the empty string while Note
and Subject are non-empty. -/
def w10row : List String :=
  ["05/06/2021", "07:00:00", "CET", "N10", "Payment", "Completed", "EUR", "3",
   "0", "3", "f10", "e10", "T10", "", "", "", "0", "", "", "", "", "SUBJ",
   "NOTE", "Credit", ""]

/-- The record `parse_record` produces from `w10row`. -/
def w10rec : StatementLine :=
  ⟨some "T10", ⟨2021, 6, 5⟩, "", "Name: N10 Email: e10", some "", 3⟩

/-- Settings whose `analyze` value "yes" is not a recognized boolean
string. -/
def badSettings : Settings := ⟨some "ACC", some "EUR", none, none, some "yes"⟩

/-! Column positions computed by `valid_header.index(...)` in the source. -/

theorem idxOf_Date : idxOf "Date" = 0 := by decide

theorem idxOf_Name : idxOf "Name" = 3 := by decide

theorem idxOf_Type : idxOf "Type" = 4 := by decide

theorem idxOf_Currency : idxOf "Currency" = 6 := by decide

theorem idxOf_Gross : idxOf "Gross" = 7 := by decide

theorem idxOf_ToEmail : idxOf "To Email Address" = 11 := by decide

theorem idxOf_TransactionID : idxOf "Transaction ID" = 12 := by decide

theorem idxOf_ItemTitle : idxOf "Item Title" = 14 := by decide

theorem idxOf_ReferenceTxnID : idxOf "Reference Txn ID" = 17 := by decide

theorem idxOf_Subject : idxOf "Subject" = 21 := by decide

theorem idxOf_Note : idxOf "Note" = 22 := by decide

/-- Characterization of a successful `parse_record` call: every field access
succeeded and each output field is the stated function of the row. -/
theorem parse_record_some (loc : Option LocaleConv) (st : LocaleConv)
    (row : List PyStr) (rec : StatementLine)
    (h : parse_record loc st row = some rec) :
    ∃ note subject title idv dmaybe dstr d nm em rf gmaybe g,
      row.get? 22 = some note ∧ row.get? 21 = some subject ∧
      row.get? 14 = some title ∧ row.get? 12 = some idv ∧
      row.get? 0 = some dmaybe ∧ dmaybe = some dstr ∧
      strptimeDMY dstr = some d ∧
      row.get? 3 = some nm ∧ row.get? 11 = some em ∧ row.get? 17 = some rf ∧
      row.get? 7 = some gmaybe ∧ gmaybe = some g ∧
      (atof (normalizeGross g) loc st).1 = some rec.amount ∧
      rec.id = idv ∧ rec.date = d ∧
      rec.memo = (match title with
        | some t => t
        | none => match subject with
          | some s2 => s2
          | none => match note with | some n => n | none => "") ∧
      rec.payee = "Name: " ++ pyFmt nm ++ " Email: " ++ pyFmt em ∧
      rec.refnum = rf := by
  simp only [parse_record, idxOf_Note, idxOf_Subject, idxOf_ItemTitle,
    idxOf_TransactionID, idxOf_Date, idxOf_Name, idxOf_ToEmail,
    idxOf_ReferenceTxnID, idxOf_Gross, bind, Option.bind_eq_some,
    Option.some.injEq] at h
  obtain ⟨note, hnote, subject, hsubject, title, htitle, idv, hidv,
    dmaybe, hdmaybe, dstr, hdstr, d, hd, nm, hnm, em, hem, rf, hrf,
    gmaybe, hgmaybe, g, hg, amount, hamount, hrec⟩ := h
  simp only [Option.pure_def, Option.some.injEq] at hrec
  subst hrec
  exact ⟨note, subject, title, idv, dmaybe, dstr, d, nm, em, rf, gmaybe, g,
    hnote, hsubject, htitle, hidv, hdmaybe, hdstr, hd, hnm, hem, hrf,
    hgmaybe, hg, hamount, rfl, rfl, rfl, rfl, rfl⟩

/-- Claim C2: for every row `parse_record` maps to a record, the memo is
chosen by the precedence "Item Title whenever present, else Subject whenever
present, else Note whenever present, else the empty string", where a
present-but-empty string counts as present and overwrites. -/
theorem c2_memo_precedence (loc : Option LocaleConv) (st : LocaleConv)
    (row : List PyStr) (rec : StatementLine)
    (h : parse_record loc st row = some rec) :
    rec.memo = ((row.getD 14 none).orElse fun _ =>
      (row.getD 21 none).orElse fun _ => row.getD 22 none).getD "" := by
  obtain ⟨note, subject, title, idv, dmaybe, dstr, d, nm, em, rf, gmaybe, g,
    hnote, hsub, htit, hid, hdm, hds, hd, hnm, hem, hrf, hgm, hg, ham,
    hidv, hdate, hmemo, hpayee, hrefn⟩ := parse_record_some loc st row rec h
  rw [List.get?_eq_getElem?] at hnote hsub htit
  rw [hmemo]
  simp only [List.getD_eq_getElem?_getD, hnote, hsub, htit, Option.getD_some]
  cases title <;> cases subject <;> cases note <;> rfl

/-- Witness for C2 at the concrete row `c2row` (Note "N", Subject present but
empty, Item Title absent): the produced memo is the empty string. -/
theorem c2_memo_precedence_witness :
    c2rec.memo = ((c2row.getD 14 none).orElse fun _ =>
      (c2row.getD 21 none).orElse fun _ => c2row.getD 22 none).getD "" ∧
    c2rec.memo = "" :=
  ⟨c2_memo_precedence none cLocaleConv c2row c2rec (by decide), by decide⟩

/-- Claim C5: every row `parse_record` maps to a record yields exactly one
record, whose `id` is the row's Transaction ID field (index 12, the position
of "Transaction ID" in the header) verbatim and whose `refnum` is the
Reference Txn ID field (index 17) unmodified; `split_records` yields each
filtered row exactly once. -/
theorem c5_id_refnum (loc : Option LocaleConv) (st : LocaleConv)
    (row : List PyStr) (rec : StatementLine)
    (h : parse_record loc st row = some rec) :
    row.get? 12 = some rec.id ∧ row.get? 17 = some rec.refnum ∧
    idxOf "Transaction ID" = 12 ∧ idxOf "Reference Txn ID" = 17 ∧
    ∀ rs : List (List String), split_records rs = rs := by
  obtain ⟨note, subject, title, idv, dmaybe, dstr, d, nm, em, rf, gmaybe, g,
    hnote, hsub, htit, hid, hdm, hds, hd, hnm, hem, hrf, hgm, hg, ham,
    hidv, hdate, hmemo, hpayee, hrefn⟩ := parse_record_some loc st row rec h
  exact ⟨by rw [hidv]; exact hid, by rw [hrefn]; exact hrf,
    idxOf_TransactionID, idxOf_ReferenceTxnID, fun _ => rfl⟩

/-- Witness for C5 at the concrete row `w5row`. -/
theorem c5_id_refnum_witness :
    w5row.get? 12 = some w5rec.id ∧ w5row.get? 17 = some w5rec.refnum ∧
    w5rec.id = some "TID5" ∧ w5rec.refnum = some "REF5" :=
  ⟨(c5_id_refnum none cLocaleConv w5row w5rec (by decide)).1,
   (c5_id_refnum none cLocaleConv w5row w5rec (by decide)).2.1,
   by decide, by decide⟩

/-- Claim C10: a row coming from the CSV reader is a list of plain strings,
so every field is present (never `None`); consequently the produced memo
always equals the Item Title field (index 14) verbatim, and the Note and
Subject fields never influence it. -/
theorem c10_memo_is_title (loc : Option LocaleConv) (st : LocaleConv)
    (r : List String) (rec : StatementLine) (_hlen : r.length = 25)
    (h : parse_record loc st (r.map some) = some rec) :
    rec.memo = r.getD 14 "" := by
  obtain ⟨note, subject, title, idv, dmaybe, dstr, d, nm, em, rf, gmaybe, g,
    hnote, hsub, htit, hid, hdm, hds, hd, hnm, hem, hrf, hgm, hg, ham,
    hidv, hdate, hmemo, hpayee, hrefn⟩ :=
    parse_record_some loc st (r.map some) rec h
  rw [List.get?_eq_getElem?, List.getElem?_map] at htit
  cases h14 : r[14]? with
  | none => rw [h14] at htit; exact absurd htit (by simp)
  | some v =>
    rw [h14] at htit
    simp only [Option.map_some'] at htit
    have htit' := Option.some.inj htit
    subst htit'
    rw [hmemo]
    simp [List.getD_eq_getElem?_getD, h14]

/-- Witness for C10 at the concrete row `w10row` (Item Title empty, Note and
Subject non-empty): the memo is the empty string. -/
theorem c10_memo_is_title_witness :
    w10rec.memo = w10row.getD 14 "" ∧ w10rec.memo = "" ∧
    w10row.getD 22 "" = "NOTE" ∧ w10row.getD 21 "" = "SUBJ" :=
  ⟨c10_memo_is_title none cLocaleConv w10row w10rec (by decide) (by decide),
   by decide, by decide, by decide⟩

/-- Counterexample to claim C3: the amount parse is not independent of the
configured locale.  Under a locale whose thousands separator is `.` (such as
`de_DE`), the normalized Gross "1.234,56" parses to 123456, not 1234.56. -/
theorem c3_locale_counterexample :
    (atof (normalizeGross "1.234,56") (some deLocaleConv) cLocaleConv).1 =
      some ((123456 : ℚ)) ∧
    ((123456 : ℚ)) ≠ ((1234.56 : ℚ)) :=
  ⟨by decide, by norm_num⟩

/-- Claim C3 as amended: the amount is the Gross field with spaces removed,
`.` removed and `,` replaced by `.`, parsed under the configured locale's
conventions; under the default "C" numeric locale "1.234,56" parses to
1234.56 and "10,50" to 10.50, but the result depends on the locale. -/
theorem c3_amount_amended :
    (∀ loc st row rec, parse_record loc st row = some rec →
      ∃ g, row.getD 7 none = some g ∧
        (atof (normalizeGross g) loc st).1 = some rec.amount)
  ∧ (atof (normalizeGross "1.234,56") none cLocaleConv).1 = some ((1234.56 : ℚ))
  ∧ (atof (normalizeGross "10,50") none cLocaleConv).1 = some ((10.50 : ℚ))
  ∧ (atof (normalizeGross "1.234,56") (some deLocaleConv) cLocaleConv).1 =
      some ((123456 : ℚ)) := by
  refine ⟨?_, ?_, ?_, by decide⟩
  · intro loc st row rec h
    obtain ⟨note, subject, title, idv, dmaybe, dstr, d, nm, em, rf, gmaybe, g,
      hnote, hsub, htit, hid, hdm, hds, hd, hnm, hem, hrf, hgm, hg, ham,
      hidv, hdate, hmemo, hpayee, hrefn⟩ := parse_record_some loc st row rec h
    refine ⟨g, ?_, ham⟩
    rw [List.get?_eq_getElem?] at hgm
    rw [List.getD_eq_getElem?_getD, hgm, Option.getD_some, hg]
  · have h : (atof (normalizeGross "1.234,56") none cLocaleConv).1 =
        some (mkRat 123456 100) := by decide
    rw [h, Rat.mkRat_eq_div]
    norm_num
  · have h : (atof (normalizeGross "10,50") none cLocaleConv).1 =
        some (mkRat 1050 100) := by decide
    rw [h, Rat.mkRat_eq_div]
    norm_num

/-- Witness for C3 (amended) at the concrete row `w3row` with Gross "7". -/
theorem c3_amount_amended_witness :
    (∃ g, w3row.getD 7 none = some g ∧
      (atof (normalizeGross g) none cLocaleConv).1 = some w3rec.amount) ∧
    w3rec.amount = 7 :=
  ⟨c3_amount_amended.1 none cLocaleConv w3row w3rec (by decide), by decide⟩

/-- Claim C8: every `atof` call restores the process-wide numeric locale: the
state after the call equals the state before it, whether the inner parse
succeeds or raises; the parse itself runs under the override (or, when no
locale is configured, under the unchanged process locale). -/
theorem c8_locale_restored (loc : Option LocaleConv) (s : String)
    (st : LocaleConv) :
    (atof s loc st).2 = st ∧ (atof s loc st).1 = localeAtof (loc.getD st) s := by
  cases loc <;> exact ⟨rfl, rfl⟩

/-- Claim C9: `parse_bool` returns true exactly on "True"/"true"/"1", false
exactly on "False"/"false"/"0", and raises on every other string; an
unparseable `analyze` setting aborts `get_parser` before any statement
parsing begins. -/
theorem c9_parse_bool :
    (∀ s, parse_bool s = some true ↔ s = "True" ∨ s = "true" ∨ s = "1")
  ∧ (∀ s, parse_bool s = some false ↔ s = "False" ∨ s = "false" ∨ s = "0")
  ∧ (∀ s, parse_bool s = none ↔
      ¬(s = "True" ∨ s = "true" ∨ s = "1" ∨ s = "False" ∨ s = "false" ∨
        s = "0"))
  ∧ (∀ st a, st.analyze = some a → parse_bool a = none →
      getParserConfig st = none) := by
  refine ⟨?_, ?_, ?_, ?_⟩
  · intro s
    simp only [parse_bool, Bool.or_eq_true, beq_iff_eq]
    split_ifs with h1 h2 <;> simp <;> tauto
  · intro s
    simp only [parse_bool, Bool.or_eq_true, beq_iff_eq]
    split_ifs with h1 h2
    · rcases h1 with (rfl | rfl) | rfl <;> decide
    · simp; tauto
    · simp; tauto
  · intro s
    simp only [parse_bool, Bool.or_eq_true, beq_iff_eq]
    split_ifs with h1 h2
    · rcases h1 with (rfl | rfl) | rfl <;> decide
    · rcases h2 with (rfl | rfl) | rfl <;> decide
    · simp; tauto
  · intro st a ha hpb
    simp [getParserConfig, ha, hpb]

/-- Witness for C9: the settings `badSettings` carry `analyze = "yes"`, which
no branch of `parse_bool` accepts, and the parser is never constructed. -/
theorem c9_parse_bool_witness :
    getParserConfig badSettings = none ∧ parse_bool "yes" = none ∧
    parse_bool "True" = some true ∧ parse_bool "0" = some false :=
  ⟨c9_parse_bool.2.2.2 badSettings "yes" rfl (by decide), by decide,
   by decide, by decide⟩

/-- Claim C7: `validate` succeeds exactly when the stripped header row equals
the fixed 25-entry expected header (trailing empty-string column included),
element by element; and the reference pipeline never invokes it — its result
does not depend on the header row at all. -/
theorem c7_validate :
    (∀ allRows : List (List String), validate allRows = some () ↔
      ∃ hrow rest, allRows = hrow :: rest ∧ hrow.map strip =
        ["Date", "Time", "Time Zone", "Name", "Type", "Status", "Currency",
         "Gross", "Fee", "Net", "From Email Address", "To Email Address",
         "Transaction ID", "Shipping Address", "Item Title", "Item ID",
         "Shipping and Handling Amount", "Reference Txn ID", "Receipt ID",
         "Balance", "Contact Phone Number", "Subject", "Note",
         "Balance Impact", ""])
  ∧ valid_header.length = 25
  ∧ (∀ loc st cur h1 h2 data, parseAll loc st cur (h1 :: data) =
      parseAll loc st cur (h2 :: data)) := by
  refine ⟨?_, by decide, fun loc st cur h1 h2 data => rfl⟩
  intro allRows
  cases allRows with
  | nil => simp [validate, header]
  | cons hrow rest =>
    have hv : validate (hrow :: rest) =
        if valid_header = hrow.map strip then some () else none := rfl
    rw [hv]
    constructor
    · intro hsome
      by_cases heq : valid_header = hrow.map strip
      · exact ⟨hrow, rest, rfl, heq.symm⟩
      · rw [if_neg heq] at hsome
        exact absurd hsome (by simp)
    · rintro ⟨hrow2, rest2, heq2, hmap⟩
      obtain ⟨rfl, rfl⟩ : hrow = hrow2 ∧ rest = rest2 := by
        injection heq2 with a b; exact ⟨a, b⟩
      have hcond : valid_header = hrow.map strip := by
        rw [hmap]
        rfl
      rw [if_pos hcond]

/-- Claim C1: on rows of the full 25-field shape, the row filter returns
exactly the stable, order-preserving subsequence of rows whose Currency field
(index 6) equals the target currency and whose Type field (index 4) is not
"Bank Deposit to PP Account". -/
theorem c1_row_filter (currency : String) (rs : List (List String))
    (h : ∀ r ∈ rs, r.length = 25) :
    rowsFilter currency rs = some (rs.filter (keepRow currency)) ∧
    (rs.filter (keepRow currency)).Sublist rs := by
  refine ⟨?_, List.filter_sublist rs⟩
  induction rs with
  | nil => rfl
  | cons r rest ih =>
    have hr : r.length = 25 := h r (by simp)
    have ihe := ih (fun x hx => h x (by simp [hx]))
    cases h6 : r[6]? with
    | none => rw [List.getElem?_eq_none_iff] at h6; omega
    | some cv =>
      cases h4 : r[4]? with
      | none => rw [List.getElem?_eq_none_iff] at h4; omega
      | some tv =>
        have hkeep : keepRow currency r =
            ((cv == currency) && !(tv == "Bank Deposit to PP Account")) := by
          simp [keepRow, List.getD_eq_getElem?_getD, h6, h4]
        rw [List.filter_cons, hkeep]
        simp only [rowsFilter, idxOf_Currency, idxOf_Type,
          List.get?_eq_getElem?, bind, h6, h4, Option.some_bind, ihe]
        by_cases hcv : (cv == currency) = true <;>
          by_cases htv : (tv == "Bank Deposit to PP Account") = true <;>
          simp [hcv, htv, ihe]

/-- Witness for C1: of three concrete 25-field rows — euros/"Payment",
dollars/"Payment" and euros/"Bank Deposit to PP Account" — only the first is
retained. -/
theorem c1_row_filter_witness :
    rowsFilter "EUR" [w1a, w1b, w1c] =
      some ([w1a, w1b, w1c].filter (keepRow "EUR")) ∧
    [w1a, w1b, w1c].filter (keepRow "EUR") = [w1a] :=
  ⟨(c1_row_filter "EUR" [w1a, w1b, w1c] (by decide)).1, by decide⟩

/-- Counterexample to claim C6: `row23` has only 23 of the 25 schema fields,
yet the run does not fail — it produces a full transaction record. -/
theorem c6_short_row_counterexample :
    row23.length = 23 ∧
    parseAll none cLocaleConv "EUR" [valid_header, row23] = some [rec23] :=
  ⟨by decide, by decide⟩

/-- Claim C6 as amended: a row with fewer than 7 fields makes the filter
raise IndexError (modelled `none`), aborting the run; a filtered row with
fewer than 23 fields makes the mapper raise IndexError; but a 23- or 24-field
row — still shorter than the 25-column schema — is processed normally and
produces a record, and a short row that fails the currency test is silently
skipped; no dedicated row-shape error exists. -/
theorem c6_short_row_amended :
    (∀ c (rs : List (List String)), (∃ r ∈ rs, r.length < 7) →
      rowsFilter c rs = none)
  ∧ (∀ loc st (row : List PyStr), row.length < 23 →
      parse_record loc st row = none)
  ∧ (∀ loc st c allRows, rows c allRows = none →
      parseAll loc st c allRows = none)
  ∧ parse_record none cLocaleConv (row23.map some) = some rec23
  ∧ rowsFilter "EUR" [["d", "t", "z", "n", "Payment", "s", "USD"]] = some [] := by
  refine ⟨?_, ?_, ?_, ?_, ?_⟩
  · intro c rs hex
    induction rs with
    | nil => obtain ⟨r, hr, -⟩ := hex; exact absurd hr (by simp)
    | cons r rest ih =>
      obtain ⟨x, hx, hxlen⟩ := hex
      rcases List.mem_cons.mp hx with rfl | hx'
      · have h6 : x[6]? = none := List.getElem?_eq_none (by omega)
        simp [rowsFilter, idxOf_Currency, bind, h6]
      · have hrest := ih ⟨x, hx', hxlen⟩
        cases h6 : r[6]? with
        | none => simp [rowsFilter, idxOf_Currency, bind, h6]
        | some cv =>
          cases h4 : r[4]? with
          | none =>
            simp [rowsFilter, idxOf_Currency, idxOf_Type, bind, h6, h4, hrest]
          | some tv =>
            simp [rowsFilter, idxOf_Currency, idxOf_Type, bind, h6, h4, hrest]
  · intro loc st row hlen
    have h22 : row[22]? = none := List.getElem?_eq_none (by omega)
    simp [parse_record, idxOf_Note, bind, h22]
  · intro loc st c allRows hnone
    simp [parseAll, hnone]
  · decide
  · decide

/-- Witness for C6 (amended): a 1-field row aborts the filter and a 1-field
row aborts the mapper. -/
theorem c6_short_row_amended_witness :
    rowsFilter "EUR" [["a"]] = none ∧
    parse_record none cLocaleConv [some "x"] = none :=
  ⟨c6_short_row_amended.1 "EUR" [["a"]] ⟨["a"], by simp, by simp⟩,
   c6_short_row_amended.2.1 none cLocaleConv [some "x"] (by simp)⟩

/-- Every month has at most 31 days. -/
theorem daysInMonth_le31 (y m : Nat) : daysInMonth y m ≤ 31 := by
  unfold daysInMonth
  split_ifs <;> omega

/-- If any yielded row fails to map, the whole driver loop fails. -/
theorem mapRecords_none (f : List String → Option StatementLine)
    (l : List (List String)) (r : List String) (hr : r ∈ l)
    (hf : f r = none) : mapRecords f l = none := by
  induction l with
  | nil => exact absurd hr (by simp)
  | cons a as ih =>
    rcases List.mem_cons.mp hr with rfl | hr'
    · simp [mapRecords, bind, hf]
    · cases hfa : f a with
      | none => simp [mapRecords, bind, hfa]
      | some line => simp [mapRecords, bind, hfa, ih hr']

/-- Counterexample to claim C4: `strptime("%d/%m/%Y")` is not an exact match
for strict `DD/MM/YYYY` — the single-digit day and month in "5/3/2023" are
accepted, so the "if and only if" fails. -/
theorem c4_date_counterexample :
    strptimeDMY "5/3/2023" = some ⟨2023, 3, 5⟩ ∧
    matchesDDMMYYYY "5/3/2023" = false :=
  ⟨by decide, by decide⟩

/-- Claim C4 as amended: every strict `DD/MM/YYYY` string denoting a valid
calendar date parses to that date ("25/12/2023" gives December 25, 2023);
strings in other formats such as "2023-12-25" fail, as do well-shaped strings
denoting invalid dates such as "31/02/2023"; the accepted grammar is wider
than strict `DD/MM/YYYY` (one- or two-digit day and month); and a row whose
mapping fails aborts the processing of the whole file. -/
theorem c4_date_amended :
    (∀ s dt, strictDDMMYYYY s = some dt → strptimeDMY s = some dt)
  ∧ strptimeDMY "25/12/2023" = some ⟨2023, 12, 25⟩
  ∧ strptimeDMY "2023-12-25" = none
  ∧ strptimeDMY "31/02/2023" = none
  ∧ (∀ loc st cur allRows rs r, rows cur allRows = some rs → r ∈ rs →
      parse_record loc st (r.map some) = none →
      parseAll loc st cur allRows = none) := by
  refine ⟨?_, by decide, by decide, by decide, ?_⟩
  · intro s dt h
    unfold strictDDMMYYYY at h
    split at h
    case h_2 => exact absurd h (by simp)
    case h_1 d1 d2 m1 m2 y1 y2 y3 y4 heq =>
      split_ifs at h with hdig
      · simp only [Bool.and_eq_true] at hdig
        obtain ⟨⟨⟨⟨⟨⟨⟨hd1, hd2⟩, hm1⟩, hm2⟩, hy1⟩, hy2⟩, hy3⟩, hy4⟩ := hdig
        simp only [] at h
        split_ifs at h with hval
        simp only [Bool.and_eq_true, decide_eq_true_eq] at hval
        obtain ⟨⟨⟨⟨hy, h1m⟩, hm12⟩, h1d⟩, hdm⟩ := hval
        simp only [Option.some.injEq] at h
        subst h
        have h31 : 10 * digitVal d1 + digitVal d2 ≤ 31 := by
          have := daysInMonth_le31
            (1000 * digitVal y1 + 100 * digitVal y2 + 10 * digitVal y3 +
              digitVal y4)
            (10 * digitVal m1 + digitVal m2)
          omega
        have hpd : parseDay [d1, d2, '/', m1, m2, '/', y1, y2, y3, y4] =
            some (10 * digitVal d1 + digitVal d2,
              ['/', m1, m2, '/', y1, y2, y3, y4]) := by
          simp only [parseDay, hd1, hd2, Bool.and_self, if_true]
          rw [if_pos]
          simp only [Bool.and_eq_true, decide_eq_true_eq]
          exact ⟨h1d, h31⟩
        have hpm : parseMonth [m1, m2, '/', y1, y2, y3, y4] =
            some (10 * digitVal m1 + digitVal m2, ['/', y1, y2, y3, y4]) := by
          simp only [parseMonth, hm1, hm2, Bool.and_self, if_true]
          rw [if_pos]
          simp only [Bool.and_eq_true, decide_eq_true_eq]
          exact ⟨h1m, hm12⟩
        have hpy : parseYear4 [y1, y2, y3, y4] =
            some (1000 * digitVal y1 + 100 * digitVal y2 + 10 * digitVal y3 +
              digitVal y4, []) := by
          simp only [parseYear4, hy1, hy2, hy3, hy4, Bool.and_self, if_true]
        show strptimeDMY s = _
        unfold strptimeDMY
        rw [heq]
        simp only [hpd, hpm, hpy, bind, Option.some_bind]
        rw [if_pos]
        simp only [Bool.and_eq_true, decide_eq_true_eq]
        exact ⟨hy, hdm⟩
  · intro loc st cur allRows rs r hrows hmem hnone
    unfold parseAll
    rw [hrows]
    simp only [bind, Option.some_bind, split_records]
    exact mapRecords_none _ rs r hmem hnone

/-- Witness for C4 (amended): the strict string "25/12/2023" parses to
December 25, 2023, and a file containing `badDateRow` (Date "2023-12-25")
aborts as a whole. -/
theorem c4_date_amended_witness :
    strptimeDMY "25/12/2023" = some ⟨2023, 12, 25⟩ ∧
    parseAll none cLocaleConv "EUR" [valid_header, badDateRow] = none :=
  ⟨c4_date_amended.1 "25/12/2023" ⟨2023, 12, 25⟩ (by decide),
   c4_date_amended.2.2.2.2 none cLocaleConv "EUR" [valid_header, badDateRow]
     [badDateRow] badDateRow (by decide) (by decide) (by decide)⟩

end PayPal
